import Mathlib

/-!
Verification of the wrapped-materials core of a DynamoDB client-side
encryption SDK (`materials/wrapped.py` and `material_providers/__init__.py`).

The embedding models Python values that matter here explicitly: dictionary
values may be text (`str`) or byte strings (`bytes`), dictionaries are
ordered association lists with CPython `dict` update semantics, and the
delegated-key capability (an external collaborator of the core) is an
abstract engine whose calls are recorded in a trace.
-/

/-- A Python value stored in a material description: either text (`str`)
or a byte string (`bytes`, modelled as a list of byte values). -/
inductive PyVal where
  | str (s : String)
  | bytes (b : List Nat)
deriving DecidableEq, Repr

/-- Python exception kinds raised by the modelled code paths. -/
inductive PyError where
  | wrappingError (msg : String)
  | unwrappingError (msg : String)
  | attributeError (msg : String)
  | valueError (msg : String)
  | typeError (msg : String)
  | keyError (msg : String)
  | capabilityError (msg : String)
deriving DecidableEq, Repr

/-- A material description: an ordered string-keyed mapping, as a CPython
`dict` is (insertion ordered). -/
abbrev MaterialDescription := List (String × PyVal)

namespace MaterialDescription

/-- `dict.get(key)` / `dict[key]`: value of the first (only) entry with the
given key. -/
def get : MaterialDescription → String → Option PyVal
  | [], _ => none
  | (k, v) :: rest, key => if k = key then some v else get rest key

/-- `dict.get(key, default)`. -/
def getD (md : MaterialDescription) (key : String) (dflt : PyVal) : PyVal :=
  (md.get key).getD dflt

/-- `key in dict`. -/
def hasKey (md : MaterialDescription) (key : String) : Bool :=
  (md.get key).isSome

/-- Setting one key in a CPython `dict`: an existing entry is updated in
place (its position kept); a new key is appended at the end. -/
def setKey : MaterialDescription → String → PyVal → MaterialDescription
  | [], key, val => [(key, val)]
  | (k, v) :: rest, key, val =>
      if k = key then (k, val) :: rest else (k, v) :: setKey rest key val

theorem get_setKey_self (md : MaterialDescription) (k : String) (v : PyVal) :
    (md.setKey k v).get k = some v := by
  induction md with
  | nil => simp [setKey, get]
  | cons hd tl ih =>
      obtain ⟨k0, v0⟩ := hd
      by_cases h : k0 = k
      · subst h
        simp [setKey, get]
      · simp [setKey, get, h, ih]

theorem get_setKey_other (md : MaterialDescription) (k k' : String) (v : PyVal)
    (h : k' ≠ k) : (md.setKey k v).get k' = md.get k' := by
  induction md with
  | nil =>
      simp only [setKey, get]
      rw [if_neg (fun hh => h hh.symm)]
  | cons hd tl ih =>
      obtain ⟨k0, v0⟩ := hd
      by_cases h0 : k0 = k
      · subst h0
        simp only [setKey, if_pos rfl, get]
        rw [if_neg (fun hh => h hh.symm), if_neg (fun hh => h hh.symm)]
      · simp only [setKey, if_neg h0, get, ih]

end MaterialDescription

/-- Modelled from the spec: the recognized material-description key for the
wrapped content key (the `MaterialDescriptionKeys` enum of the repository's
internal identifiers module is not part of the provided sources; the spec
names this key "wrapped-content-key"). -/
def WRAPPED_DATA_KEY : String := "wrapped-content-key"

/-- Modelled from the spec: the recognized material-description key for the
content encryption algorithm spec. -/
def CONTENT_ENCRYPTION_ALGORITHM : String := "content-encryption-algorithm-spec"

/-- Modelled from the spec: the recognized material-description key for the
content-key wrapping algorithm transform name. -/
def CONTENT_KEY_WRAPPING_ALGORITHM : String := "content-key-wrapping-algorithm"

/-- `_DEFAULT_CONTENT_ENCRYPTION_ALGORITHM = 'AES/256'`. -/
def DEFAULT_CONTENT_ENCRYPTION_ALGORITHM : String := "AES/256"

/-- `_WRAPPING_TRANSFORMATION`: fixed translation table from a delegated
key's native algorithm name to its wrapping transform name. -/
def WRAPPING_TRANSFORMATION : List (String × String) :=
  [("AES", "AESWrap"), ("RSA", "RSA/ECB/OAEPWithSHA-256AndMGF1Padding")]

/-- The base64 alphabet as ASCII byte values: A-Z, a-z, 0-9, +, /. -/
def b64alphabet : List Nat :=
  (List.range 26).map (· + 65) ++ (List.range 26).map (· + 97) ++
    (List.range 10).map (· + 48) ++ [43, 47]

/-- The base64 character (ASCII byte) for a 6-bit value. -/
def b64chr (n : Nat) : Nat := b64alphabet.getD n 61

/-- The 6-bit value of a base64 character (ASCII byte), if any. -/
def b64ord (c : Nat) : Option Nat := b64alphabet.indexOf? c

/-- `base64.b64encode` on a byte string, producing the ASCII bytes of the
standard base64 encoding with `=` (61) padding. -/
def b64encode : List Nat → List Nat
  | [] => []
  | [a] => [b64chr (a / 4), b64chr (a % 4 * 16), 61, 61]
  | [a, b] => [b64chr (a / 4), b64chr (a % 4 * 16 + b / 16), b64chr (b % 16 * 4), 61]
  | a :: b :: c :: rest =>
      b64chr (a / 4) :: b64chr (a % 4 * 16 + b / 16) ::
        b64chr (b % 16 * 4 + c / 64) :: b64chr (c % 64) :: b64encode rest

/-- Standard base64 decoding of a list of ASCII bytes, four characters at a
time, accepting `=` padding only at the very end; `none` on malformed
input. -/
def b64decodeAux : List Nat → Option (List Nat)
  | [] => some []
  | p :: q :: r :: s :: rest =>
      (b64ord p).bind fun x =>
      (b64ord q).bind fun y =>
      if r = 61 then
        (if s = 61 ∧ rest = [] then some [x * 4 + y / 16] else none)
      else
        (b64ord r).bind fun z =>
        if s = 61 then
          (if rest = [] then some [x * 4 + y / 16, y % 16 * 16 + z / 4] else none)
        else
          (b64ord s).bind fun w =>
          (b64decodeAux rest).map fun tail =>
            [x * 4 + y / 16, y % 16 * 16 + z / 4, z % 4 * 64 + w] ++ tail
  | _ => none

theorem b64ord_b64chr (n : Nat) (h : n < 64) : b64ord (b64chr n) = some n := by
  interval_cases n <;> rfl

theorem b64chr_ne_61 (n : Nat) (h : n < 64) : b64chr n ≠ 61 := by
  interval_cases n <;> decide

/-- Base64 round trip: decoding an encoded byte string recovers it. -/
theorem b64decodeAux_b64encode (bs : List Nat) (hb : ∀ x ∈ bs, x < 256) :
    b64decodeAux (b64encode bs) = some bs := by
  induction bs using b64encode.induct with
  | case1 => rfl
  | case2 a =>
      have ha : a < 256 := hb a (by simp)
      have h1 : a / 4 < 64 := by omega
      have h2 : a % 4 * 16 < 64 := by omega
      simp [b64encode, b64decodeAux, b64ord_b64chr _ h1, b64ord_b64chr _ h2]
      omega
  | case3 a b =>
      have ha : a < 256 := hb a (by simp)
      have hc : b < 256 := hb b (by simp)
      have h1 : a / 4 < 64 := by omega
      have h2 : a % 4 * 16 + b / 16 < 64 := by omega
      have h3 : b % 16 * 4 < 64 := by omega
      simp [b64encode, b64decodeAux, b64ord_b64chr _ h1, b64ord_b64chr _ h2,
        b64ord_b64chr _ h3, b64chr_ne_61 _ h3]
      omega
  | case4 a b c rest ih =>
      have ha : a < 256 := hb a (by simp)
      have hbb : b < 256 := hb b (by simp)
      have hcc : c < 256 := hb c (by simp)
      have hrest : ∀ x ∈ rest, x < 256 := fun x hx => hb x (by simp [hx])
      have h1 : a / 4 < 64 := by omega
      have h2 : a % 4 * 16 + b / 16 < 64 := by omega
      have h3 : b % 16 * 4 + c / 64 < 64 := by omega
      have h4 : c % 64 < 64 := by omega
      simp [b64encode, b64decodeAux, b64ord_b64chr _ h1, b64ord_b64chr _ h2,
        b64ord_b64chr _ h3, b64ord_b64chr _ h4, b64chr_ne_61 _ h3,
        b64chr_ne_61 _ h4, ih hrest]
      omega

/-- Python `s.split(sep, 1)` helper on a character list: text before the
first separator, and the remainder after it when the separator occurs. -/
def splitFirstAux : List Char → Char → List Char → String × Option String
  | [], _, acc => (String.mk acc.reverse, none)
  | c :: rest, sep, acc =>
      if c = sep then (String.mk acc.reverse, some (String.mk rest))
      else splitFirstAux rest sep (c :: acc)

/-- Python `s.split(sep, 1)` for a one-character separator: the result list
has the first segment and, when the separator occurs at all, exactly one
remainder segment. -/
def splitFirst (s : String) (sep : Char) : String × Option String :=
  splitFirstAux s.toList sep []

/-- Decimal digit-run value for `pyInt`; `none` when empty or not all
digits. -/
def pyIntDigits : List Char → Option Nat
  | [] => none
  | cs =>
      if cs.all (·.isDigit) then
        some (cs.foldl (fun n c => n * 10 + (c.toNat - 48)) 0)
      else none

/-- Python `int(s)` on a string: optional surrounding spaces, an optional
sign, then one or more decimal digits; `none` models the `ValueError`
raised on any other input. -/
def pyInt (s : String) : Option Int :=
  match (((s.toList.dropWhile (· = ' ')).reverse.dropWhile (· = ' ')).reverse) with
  | '-' :: rest => (pyIntDigits rest).map (fun n => -(n : Int))
  | '+' :: rest => (pyIntDigits rest).map (fun n => (n : Int))
  | cs => (pyIntDigits cs).map (fun n => (n : Int))

/-- Modelled from the spec: a delegated key (the repository's
`delegated_keys` package is not among the provided sources). Per the spec
it exposes a read-only native algorithm identifier and raw key bytes. -/
structure DelegatedKey where
  algorithm : String
  key : List Nat
deriving DecidableEq, Repr

/-- One call made to the delegated-key capability, recorded in a trace so
theorems can state whether and how the external engine was touched. -/
inductive CapCall where
  | generateCall (algorithm : String) (key_length : Option Int)
  | wrapCall (algorithm : String) (content_key : List Nat)
  | unwrapCall (algorithm : String) (wrapped_key : List Nat) (wrapped_key_algorithm : String)
deriving DecidableEq, Repr

/-- Modelled from the spec: the delegated-key capability engine (an
external collaborator specified only at its interface: `wrap`, `unwrap`,
`generate`). `wrap` is invoked on the wrapping key and `unwrap` on the
unwrapping key; the core always passes `additional_associated_data=None`
and `wrapped_key_type=SYMMETRIC`, so neither argument is modelled. -/
structure CryptoEngine where
  wrap : DelegatedKey → String → List Nat → Except PyError (List Nat)
  unwrap : DelegatedKey → String → List Nat → String → Except PyError DelegatedKey
  generate : String → Option Int → Except PyError DelegatedKey

/-- Use of a material-description value where the code needs text; a
`bytes` value used as `str` is modelled as a `TypeError` (the Python 3
behavior when such a value reaches a `str`-only operation). -/
def PyVal.asStr : PyVal → Except PyError String
  | .str s => .ok s
  | .bytes _ => .error (.typeError "expected str value in material description")

/-- `base64.b64decode` on a material-description value (it accepts `str`
or `bytes`); `binascii.Error`, a `ValueError` subclass, on malformed
input. -/
def b64decodeVal : PyVal → Except PyError (List Nat)
  | .str s =>
      match b64decodeAux (s.toList.map Char.toNat) with
      | some bs => .ok bs
      | none => .error (.valueError "Invalid base64-encoded string")
  | .bytes b =>
      match b64decodeAux b with
      | some bs => .ok bs
      | none => .error (.valueError "Invalid base64-encoded string")

/-- Association lookup on a string-to-string table (`dict.get(key)`). -/
def lookupStr : List (String × String) → String → Option String
  | [], _ => none
  | (k, v) :: rest, key => if k = key then some v else lookupStr rest key

/-- `WrappedCryptographicMaterials._wrapping_transformation`: translate an
algorithm name through `_WRAPPING_TRANSFORMATION`, unknown names passing
through unchanged (`dict.get(algorithm, algorithm)`). -/
def wrapping_transformation (algorithm : String) : String :=
  (lookupStr WRAPPING_TRANSFORMATION algorithm).getD algorithm

/-- The `try: int(args[1]) // 8 except IndexError: None` step of
`_generate_content_key`: a missing second split segment is the caught
`IndexError`; a present but non-integer segment raises the uncaught
`ValueError` from `int`. `//` is Python floor division. -/
def keyLengthFrom : Option String → Except PyError (Option Int)
  | none => .ok none
  | some s =>
      match pyInt s with
      | some n => .ok (some (Int.fdiv n 8))
      | none => .error (.valueError ("invalid literal for int() with base 10: " ++ s))

/-- `WrappedCryptographicMaterials._content_key_from_material_description`:
check the unwrapping key, resolve the wrapping algorithm (explicit entry or
the unwrapping key's native algorithm), base64-decode the wrapped key, take
the first `/`-segment of the content algorithm spec, and unwrap; paired
with the trace of capability calls made. -/
def content_key_from_material_description (e : CryptoEngine)
    (unwrapping_key : Option DelegatedKey) (content_key_algorithm : PyVal)
    (material_description : MaterialDescription) :
    List CapCall × Except PyError DelegatedKey :=
  match unwrapping_key with
  | none => ([], .error (.unwrappingError
      "Cryptographic materials cannot be loaded from material description: no unwrapping key"))
  | some uk =>
      match (material_description.getD CONTENT_KEY_WRAPPING_ALGORITHM (.str uk.algorithm)).asStr with
      | .error err => ([], .error err)
      | .ok wrapping_algorithm =>
          match material_description.get WRAPPED_DATA_KEY with
          | none => ([], .error (.keyError WRAPPED_DATA_KEY))
          | some wrapped_val =>
              match b64decodeVal wrapped_val with
              | .error err => ([], .error err)
              | .ok wrapped_key =>
                  match content_key_algorithm.asStr with
                  | .error err => ([], .error err)
                  | .ok cka =>
                      ([CapCall.unwrapCall wrapping_algorithm wrapped_key (splitFirst cka '/').1],
                       e.unwrap uk wrapping_algorithm wrapped_key (splitFirst cka '/').1)

/-- `WrappedCryptographicMaterials._generate_content_key`: check the
wrapping key, resolve the wrapping algorithm (explicit entry or the
translation of the wrapping key's native algorithm), split the content
algorithm spec, generate a fresh content key, wrap it, and extend a copy of
the material description with the three entries; paired with the trace of
capability calls made. -/
def generate_content_key (e : CryptoEngine) (wrapping_key : Option DelegatedKey)
    (content_key_algorithm : PyVal) (material_description : MaterialDescription) :
    List CapCall × Except PyError (DelegatedKey × MaterialDescription) :=
  match wrapping_key with
  | none => ([], .error (.wrappingError
      "Cryptographic materials cannot be generated: no wrapping key"))
  | some wk =>
      match (material_description.getD CONTENT_KEY_WRAPPING_ALGORITHM
          (.str (wrapping_transformation wk.algorithm))).asStr with
      | .error err => ([], .error err)
      | .ok wrapping_algorithm =>
          match content_key_algorithm.asStr with
          | .error err => ([], .error err)
          | .ok cka =>
              match keyLengthFrom (splitFirst cka '/').2 with
              | .error err => ([], .error err)
              | .ok content_key_length =>
                  match e.generate (splitFirst cka '/').1 content_key_length with
                  | .error err =>
                      ([CapCall.generateCall (splitFirst cka '/').1 content_key_length],
                       .error err)
                  | .ok content_key =>
                      match e.wrap wk wrapping_algorithm content_key.key with
                      | .error err =>
                          ([CapCall.generateCall (splitFirst cka '/').1 content_key_length,
                            CapCall.wrapCall wrapping_algorithm content_key.key],
                           .error err)
                      | .ok wrapped_key =>
                          ([CapCall.generateCall (splitFirst cka '/').1 content_key_length,
                            CapCall.wrapCall wrapping_algorithm content_key.key],
                           .ok (content_key,
                             ((material_description.setKey WRAPPED_DATA_KEY
                                 (.bytes (b64encode wrapped_key))).setKey
                               CONTENT_ENCRYPTION_ALGORITHM content_key_algorithm).setKey
                               CONTENT_KEY_WRAPPING_ALGORITHM (.str wrapping_algorithm)))

/-- A fully constructed `WrappedCryptographicMaterials` instance: signing
key, derived content key, and owned material description. -/
structure WrappedMaterials where
  signing_key : DelegatedKey
  content_key : DelegatedKey
  material_description : MaterialDescription
deriving DecidableEq, Repr

/-- Construction of `WrappedCryptographicMaterials` (`attrs` init plus
`__attrs_post_init__`): read the content-encryption algorithm spec with its
default, then branch on the presence of the wrapped-content-key entry;
returns the capability-call trace with the result. `copy.deepcopy` of the
incoming description is the identity on values; the aliasing it prevents is
modelled separately in the heap model below. -/
def construct (e : CryptoEngine) (signing_key : DelegatedKey)
    (wrapping_key unwrapping_key : Option DelegatedKey)
    (material_description : MaterialDescription) :
    List CapCall × Except PyError WrappedMaterials :=
  let content_key_algorithm := material_description.getD CONTENT_ENCRYPTION_ALGORITHM
      (.str DEFAULT_CONTENT_ENCRYPTION_ALGORITHM)
  if material_description.hasKey WRAPPED_DATA_KEY then
    let cr := content_key_from_material_description e unwrapping_key content_key_algorithm
        material_description
    (cr.1, cr.2.map fun ck => ⟨signing_key, ck, material_description⟩)
  else
    let cr := generate_content_key e wrapping_key content_key_algorithm material_description
    (cr.1, cr.2.map fun p => ⟨signing_key, p.1, p.2⟩)

/-- `encryption_key` accessor: the derived content key. -/
def WrappedMaterials.encryption_key (m : WrappedMaterials) : DelegatedKey := m.content_key

/-- `decryption_key` accessor: the same derived content key. -/
def WrappedMaterials.decryption_key (m : WrappedMaterials) : DelegatedKey := m.content_key

/-- `verification_key` accessor: the same key as `signing_key`. -/
def WrappedMaterials.verification_key (m : WrappedMaterials) : DelegatedKey := m.signing_key

/-- A minimal heap of Python dictionaries, used to state the aliasing
properties that `copy.deepcopy` and `dict.copy()` in the source are there
to guarantee: a reference is an allocation index. -/
structure Heap where
  store : Nat → MaterialDescription
  next : Nat

/-- Dereference. -/
def Heap.read (h : Heap) (r : Nat) : MaterialDescription := h.store r

/-- Allocate a fresh dictionary holding the given contents. -/
def Heap.alloc (h : Heap) (d : MaterialDescription) : Nat × Heap :=
  (h.next, ⟨fun r => if r = h.next then d else h.store r, h.next + 1⟩)

/-- In-place mutation of the dictionary behind a reference. -/
def Heap.write (h : Heap) (r : Nat) (d : MaterialDescription) : Heap :=
  ⟨fun x => if x = r then d else h.store x, h.next⟩

theorem Heap.read_alloc_of_lt (h : Heap) (d : MaterialDescription) (r : Nat)
    (hr : r < h.next) : (h.alloc d).2.read r = h.read r := by
  simp only [Heap.alloc, Heap.read]
  rw [if_neg (by omega)]

theorem Heap.next_alloc (h : Heap) (d : MaterialDescription) :
    (h.alloc d).2.next = h.next + 1 := rfl

theorem Heap.read_write_of_ne (h : Heap) (r r' : Nat) (d : MaterialDescription)
    (hne : r' ≠ r) : (h.write r d).read r' = h.read r' := by
  simp only [Heap.write, Heap.read]
  rw [if_neg hne]

/-- A `WrappedCryptographicMaterials` instance at the heap level: the
material description is held by reference, as a Python attribute holds a
`dict` object. -/
structure WrappedMaterialsRef where
  signing_key : DelegatedKey
  content_key : DelegatedKey
  material_description_ref : Nat

/-- Heap-level construction of `WrappedCryptographicMaterials`: the
`attr.ib(converter=copy.deepcopy)` on `_material_description` allocates a
fresh dictionary with a copy of the caller's contents, and on the
generation path `material_description.copy()` followed by `update`
allocates another fresh dictionary for the new description. -/
def constructRef (e : CryptoEngine) (signing_key : DelegatedKey)
    (wrapping_key unwrapping_key : Option DelegatedKey)
    (callerRef : Nat) (h : Heap) :
    List CapCall × Except PyError (WrappedMaterialsRef × Heap) :=
  let own := h.alloc (h.read callerRef)
  let d := own.2.read own.1
  let content_key_algorithm := d.getD CONTENT_ENCRYPTION_ALGORITHM
      (.str DEFAULT_CONTENT_ENCRYPTION_ALGORITHM)
  if d.hasKey WRAPPED_DATA_KEY then
    let cr := content_key_from_material_description e unwrapping_key content_key_algorithm d
    (cr.1, cr.2.map fun ck => (⟨signing_key, ck, own.1⟩, own.2))
  else
    let cr := generate_content_key e wrapping_key content_key_algorithm d
    (cr.1, cr.2.map fun p =>
      let fresh := own.2.alloc p.2
      (⟨signing_key, p.1, fresh.1⟩, fresh.2))

/-- An encryption context: opaque to this core, passed through untouched
to providers. -/
structure EncryptionContext where
  data : List (String × String)
deriving DecidableEq, Repr

namespace CryptographicMaterialsProvider

/-- `CryptographicMaterialsProvider.decryption_materials` on the
unmodified base class: always raises
`AttributeError('No decryption materials available')` (the code's
realization of the spec's conceptual `UnsupportedOperation` error kind).
The materials type is irrelevant on this always-raising path and is
instantiated with `WrappedMaterials`. -/
def decryption_materials (_encryption_context : EncryptionContext) :
    Except PyError WrappedMaterials :=
  .error (.attributeError "No decryption materials available")

/-- `CryptographicMaterialsProvider.encryption_materials` on the
unmodified base class: always raises
`AttributeError('No encryption materials available')`. -/
def encryption_materials (_encryption_context : EncryptionContext) :
    Except PyError WrappedMaterials :=
  .error (.attributeError "No encryption materials available")

/-- `CryptographicMaterialsProvider.refresh`: the default behavior is to
do nothing and return normally. -/
def refresh : Except PyError Unit := .ok ()

end CryptographicMaterialsProvider

/-- A concrete deterministic delegated-key engine used to instantiate
universally quantified theorems: wrapping is the identity on valid byte
strings, unwrapping returns the wrapped bytes as a key of the requested
family, generation returns a fixed two-byte key of the requested
algorithm. -/
def testEngine : CryptoEngine where
  wrap := fun _ _ ck =>
    if ck.all (· < 256) then .ok ck else .error (.capabilityError "invalid key bytes")
  unwrap := fun _ _ w fam => .ok ⟨fam, w⟩
  generate := fun alg _ => .ok ⟨alg, [7, 11]⟩

/-- A concrete signing key for instantiations. -/
def sk0 : DelegatedKey := ⟨"HmacSHA256", [1, 2, 3]⟩

/-- A concrete AES wrapping/unwrapping key for instantiations. -/
def wk0 : DelegatedKey := ⟨"AES", [9, 9]⟩

/-- A concrete material description already holding a wrapped content key
("AAAA" is base64 for three zero bytes). -/
def mdWithWrapped : MaterialDescription := [(WRAPPED_DATA_KEY, PyVal.str "AAAA")]

/-- The material description produced by `testEngine` generation from an
empty caller description. -/
def mdGen0 : MaterialDescription :=
  [(WRAPPED_DATA_KEY, PyVal.bytes (b64encode [7, 11])),
   (CONTENT_ENCRYPTION_ALGORITHM, PyVal.str "AES/256"),
   (CONTENT_KEY_WRAPPING_ALGORITHM, PyVal.str "AESWrap")]

/-- The materials instance produced by `testEngine` generation from an
empty caller description. -/
def m1Gen0 : WrappedMaterials := ⟨sk0, ⟨"AES", [7, 11]⟩, mdGen0⟩

/-- C2: the presence of a wrapped-content-key entry alone selects the
path: with the entry present the construction result (trace and outcome)
does not depend on the wrapping key at all, and a missing unwrapping key
raises `UnwrappingError` even when a wrapping key was supplied; with the
entry absent the result does not depend on the unwrapping key, and a
missing wrapping key raises `WrappingError` even when an unwrapping key
was supplied — no fallback between the paths. -/
theorem c2_path_selection (e : CryptoEngine) (sk : DelegatedKey)
    (wk uk : Option DelegatedKey) (md : MaterialDescription) :
    (md.hasKey WRAPPED_DATA_KEY = true →
      construct e sk wk uk md = construct e sk none uk md ∧
      (uk = none → (construct e sk wk uk md).2 = .error (.unwrappingError
        "Cryptographic materials cannot be loaded from material description: no unwrapping key"))) ∧
    (md.hasKey WRAPPED_DATA_KEY = false →
      construct e sk wk uk md = construct e sk wk none md ∧
      (wk = none → (construct e sk wk uk md).2 = .error (.wrappingError
        "Cryptographic materials cannot be generated: no wrapping key"))) := by
  constructor
  · intro hk
    refine ⟨by simp only [construct, hk, if_true], ?_⟩
    intro h
    subst h
    simp only [construct, hk, if_true]
    rfl
  · intro hk
    refine ⟨by simp only [construct, hk, Bool.false_eq_true, if_false], ?_⟩
    intro h
    subst h
    simp only [construct, hk, Bool.false_eq_true, if_false]
    rfl

/-- Witness for C2 at concrete inputs: with a wrapped-content-key entry
present a supplied wrapping key is ignored, and without it a supplied
unwrapping key is ignored. -/
theorem c2_path_selection_witness :
    construct testEngine sk0 (some wk0) none mdWithWrapped
      = construct testEngine sk0 none none mdWithWrapped ∧
    construct testEngine sk0 none (some wk0) [] = construct testEngine sk0 none none [] :=
  ⟨((c2_path_selection testEngine sk0 (some wk0) none mdWithWrapped).1 (by decide)).1,
   ((c2_path_selection testEngine sk0 none (some wk0) []).2 (by decide)).1⟩

/-- C3: missing-key failures fail fast: on the generation path (no
wrapped-content-key entry) with no wrapping key, construction raises
`WrappingError`, and on the recovery path (entry present) with no
unwrapping key it raises `UnwrappingError`; in both cases the trace of
delegated-key capability calls is empty, so the error precedes any
generate, wrap, or unwrap call. -/
theorem c3_missing_key_fail_fast (e : CryptoEngine) (sk : DelegatedKey)
    (wk uk : Option DelegatedKey) (md : MaterialDescription) :
    (md.hasKey WRAPPED_DATA_KEY = false →
      construct e sk none uk md = ([], .error (.wrappingError
        "Cryptographic materials cannot be generated: no wrapping key"))) ∧
    (md.hasKey WRAPPED_DATA_KEY = true →
      construct e sk wk none md = ([], .error (.unwrappingError
        "Cryptographic materials cannot be loaded from material description: no unwrapping key"))) := by
  constructor
  · intro hk
    simp only [construct, hk, Bool.false_eq_true, if_false]
    rfl
  · intro hk
    simp only [construct, hk, if_true]
    rfl

/-- Witness for C3 at concrete inputs (empty description for generation,
a description holding a wrapped key for recovery). -/
theorem c3_missing_key_fail_fast_witness :
    construct testEngine sk0 none none [] = ([], .error (.wrappingError
      "Cryptographic materials cannot be generated: no wrapping key")) ∧
    construct testEngine sk0 none none mdWithWrapped = ([], .error (.unwrappingError
      "Cryptographic materials cannot be loaded from material description: no unwrapping key")) :=
  ⟨(c3_missing_key_fail_fast testEngine sk0 none none []).1 (by decide),
   (c3_missing_key_fail_fast testEngine sk0 none none mdWithWrapped).2 (by decide)⟩

/-- C9: the unmodified base provider raises a distinct error kind
(`AttributeError` in the code, realizing the spec's conceptual
`UnsupportedOperation`) from both materials methods — distinguishable from
the material-resolution failure kinds `WrappingError`/`UnwrappingError` —
and `refresh()` returns normally with no effect and never raises. -/
theorem c9_base_provider_unsupported (ctx : EncryptionContext) :
    CryptographicMaterialsProvider.decryption_materials ctx
      = .error (.attributeError "No decryption materials available") ∧
    CryptographicMaterialsProvider.encryption_materials ctx
      = .error (.attributeError "No encryption materials available") ∧
    CryptographicMaterialsProvider.refresh = Except.ok () ∧
    (∀ m m' : String, PyError.attributeError m ≠ PyError.wrappingError m' ∧
      PyError.attributeError m ≠ PyError.unwrappingError m') := by
  refine ⟨rfl, rfl, rfl, ?_⟩
  intro m m'
  exact ⟨fun h => (nomatch h), fun h => (nomatch h)⟩

/-- Witness for C9 at a concrete encryption context. -/
theorem c9_base_provider_unsupported_witness :
    CryptographicMaterialsProvider.decryption_materials ⟨[]⟩
      = .error (.attributeError "No decryption materials available") ∧
    CryptographicMaterialsProvider.encryption_materials ⟨[]⟩
      = .error (.attributeError "No encryption materials available") ∧
    CryptographicMaterialsProvider.refresh = Except.ok () :=
  ⟨(c9_base_provider_unsupported ⟨[]⟩).1, (c9_base_provider_unsupported ⟨[]⟩).2.1,
   (c9_base_provider_unsupported ⟨[]⟩).2.2.1⟩

/-- On the generation path, once the algorithm spec and wrapping transform
resolve and key generation succeeds, the capability-call trace is exactly
a generate call followed by a wrap call with the resolved transform,
whether or not the wrap itself succeeds. -/
theorem generation_trace (e : CryptoEngine) (sk wk : DelegatedKey)
    (uk : Option DelegatedKey) (md : MaterialDescription) (spec walg : String)
    (len : Option Int) (ck : DelegatedKey)
    (hno : md.hasKey WRAPPED_DATA_KEY = false)
    (hcea : md.getD CONTENT_ENCRYPTION_ALGORITHM
      (.str DEFAULT_CONTENT_ENCRYPTION_ALGORITHM) = .str spec)
    (hckwa : (md.getD CONTENT_KEY_WRAPPING_ALGORITHM
      (.str (wrapping_transformation wk.algorithm))).asStr = .ok walg)
    (hlen : keyLengthFrom (splitFirst spec '/').2 = .ok len)
    (hgen : e.generate (splitFirst spec '/').1 len = .ok ck) :
    (construct e sk (some wk) uk md).1
      = [.generateCall (splitFirst spec '/').1 len, .wrapCall walg ck.key] := by
  simp only [construct, hno, Bool.false_eq_true, if_false, hcea]
  simp only [generate_content_key]
  simp only [hckwa]
  simp only [PyVal.asStr]
  simp only [hlen]
  simp only [hgen]
  rcases hw : e.wrap wk walg ck.key with err | w <;> simp [hw]

/-- On the generation path, before key generation is reached, the trace
head is never anything but the generate call; with the same resolution
hypotheses but no assumption on the engine, the first capability call (if
any) is the generate call with the resolved family and length. -/
theorem generation_trace_head (e : CryptoEngine) (sk wk : DelegatedKey)
    (uk : Option DelegatedKey) (md : MaterialDescription) (spec walg : String)
    (len : Option Int)
    (hno : md.hasKey WRAPPED_DATA_KEY = false)
    (hcea : md.getD CONTENT_ENCRYPTION_ALGORITHM
      (.str DEFAULT_CONTENT_ENCRYPTION_ALGORITHM) = .str spec)
    (hckwa : (md.getD CONTENT_KEY_WRAPPING_ALGORITHM
      (.str (wrapping_transformation wk.algorithm))).asStr = .ok walg)
    (hlen : keyLengthFrom (splitFirst spec '/').2 = .ok len) :
    (construct e sk (some wk) uk md).1.head?
      = some (.generateCall (splitFirst spec '/').1 len) := by
  simp only [construct, hno, Bool.false_eq_true, if_false, hcea]
  simp only [generate_content_key]
  simp only [hckwa]
  simp only [PyVal.asStr]
  simp only [hlen]
  rcases hg : e.generate (splitFirst spec '/').1 len with err | ck
  · simp [hg]
  · rcases hw : e.wrap wk walg ck.key with err | w <;> simp [hg, hw]

/-- On the generation path, when every step succeeds, the full result:
the trace and the materials with the three-entry extension of the
caller's description. -/
theorem generation_result (e : CryptoEngine) (sk wk : DelegatedKey)
    (uk : Option DelegatedKey) (md : MaterialDescription) (spec walg : String)
    (len : Option Int) (ck : DelegatedKey) (w : List Nat)
    (hno : md.hasKey WRAPPED_DATA_KEY = false)
    (hcea : md.getD CONTENT_ENCRYPTION_ALGORITHM
      (.str DEFAULT_CONTENT_ENCRYPTION_ALGORITHM) = .str spec)
    (hckwa : (md.getD CONTENT_KEY_WRAPPING_ALGORITHM
      (.str (wrapping_transformation wk.algorithm))).asStr = .ok walg)
    (hlen : keyLengthFrom (splitFirst spec '/').2 = .ok len)
    (hgen : e.generate (splitFirst spec '/').1 len = .ok ck)
    (hw : e.wrap wk walg ck.key = .ok w) :
    construct e sk (some wk) uk md
      = ([.generateCall (splitFirst spec '/').1 len, .wrapCall walg ck.key],
         .ok ⟨sk, ck,
           ((md.setKey WRAPPED_DATA_KEY (.bytes (b64encode w))).setKey
             CONTENT_ENCRYPTION_ALGORITHM (.str spec)).setKey
             CONTENT_KEY_WRAPPING_ALGORITHM (.str walg)⟩) := by
  simp only [construct, hno, Bool.false_eq_true, if_false, hcea]
  simp only [generate_content_key]
  simp only [hckwa]
  simp only [PyVal.asStr]
  simp only [hlen]
  simp only [hgen]
  simp only [hw]
  simp only [Except.map]

/-- C7: on the generation path an explicit content-key-wrapping-algorithm
entry is used as the wrapping transform; otherwise the wrapping key's
native algorithm identifier is mapped through the fixed table ("AES" to
"AESWrap", "RSA" to the OAEP-with-SHA-256 transform name) and any
identifier not in the table resolves to itself. The resolved transform is
exactly what the wrap call receives, observed in the capability trace. -/
theorem c7_wrapping_transform_resolution (e : CryptoEngine) (sk wk : DelegatedKey)
    (uk : Option DelegatedKey) (md : MaterialDescription) (spec : String)
    (len : Option Int) (ck : DelegatedKey)
    (hno : md.hasKey WRAPPED_DATA_KEY = false)
    (hcea : md.getD CONTENT_ENCRYPTION_ALGORITHM
      (.str DEFAULT_CONTENT_ENCRYPTION_ALGORITHM) = .str spec)
    (hlen : keyLengthFrom (splitFirst spec '/').2 = .ok len)
    (hgen : e.generate (splitFirst spec '/').1 len = .ok ck) :
    (∀ t, md.get CONTENT_KEY_WRAPPING_ALGORITHM = some (.str t) →
      (construct e sk (some wk) uk md).1
        = [.generateCall (splitFirst spec '/').1 len, .wrapCall t ck.key]) ∧
    (md.get CONTENT_KEY_WRAPPING_ALGORITHM = none →
      (construct e sk (some wk) uk md).1
        = [.generateCall (splitFirst spec '/').1 len,
           .wrapCall (wrapping_transformation wk.algorithm) ck.key]) ∧
    wrapping_transformation "AES" = "AESWrap" ∧
    wrapping_transformation "RSA" = "RSA/ECB/OAEPWithSHA-256AndMGF1Padding" ∧
    (∀ a, a ≠ "AES" → a ≠ "RSA" → wrapping_transformation a = a) := by
  refine ⟨?_, ?_, by decide, by decide, ?_⟩
  · intro t ht
    exact generation_trace e sk wk uk md spec t len ck hno hcea
      (by simp [MaterialDescription.getD, ht, PyVal.asStr]) hlen hgen
  · intro ht
    exact generation_trace e sk wk uk md spec (wrapping_transformation wk.algorithm) len ck
      hno hcea (by simp [MaterialDescription.getD, ht, PyVal.asStr]) hlen hgen
  · intro a h1 h2
    simp only [wrapping_transformation, WRAPPING_TRANSFORMATION, lookupStr]
    rw [if_neg (fun hh => h1 hh.symm), if_neg (fun hh => h2 hh.symm)]
    rfl

/-- Witness for C7: with no explicit entry and an AES wrapping key, the
wrap call in the trace uses the translated transform name. -/
theorem c7_wrapping_transform_resolution_witness :
    (construct testEngine sk0 (some wk0) none []).1
      = [CapCall.generateCall (splitFirst "AES/256" '/').1 (some 32),
         CapCall.wrapCall (wrapping_transformation wk0.algorithm)
           (DelegatedKey.key ⟨"AES", [7, 11]⟩)] :=
  (c7_wrapping_transform_resolution testEngine sk0 wk0 none [] "AES/256" (some 32)
    ⟨"AES", [7, 11]⟩ (by decide) (by decide) rfl rfl).2.1 rfl

/-- C8: with an empty description the content-encryption spec defaults to
"AES/256" and the generate call requests family "AES" at 32 bytes (256
divided by 8); with spec "AES" (no "/" segment) the generate call passes
no key length, and when the engine's generate and wrap succeed the
construction succeeds, its content key being the generated key. -/
theorem c8_defaults_and_key_length (e : CryptoEngine) (sk wk : DelegatedKey)
    (uk : Option DelegatedKey) :
    (construct e sk (some wk) uk []).1.head?
      = some (.generateCall "AES" (some 32)) ∧
    (construct e sk (some wk) uk [(CONTENT_ENCRYPTION_ALGORITHM, PyVal.str "AES")]).1.head?
      = some (.generateCall "AES" none) ∧
    (∀ ck w, e.generate "AES" none = .ok ck →
      e.wrap wk (wrapping_transformation wk.algorithm) ck.key = .ok w →
      ∃ M, (construct e sk (some wk) uk
          [(CONTENT_ENCRYPTION_ALGORITHM, PyVal.str "AES")]).2 = .ok M ∧
        M.encryption_key = ck) := by
  have hs1 : (splitFirst "AES/256" '/') = ("AES", some "256") := by decide
  have hs2 : (splitFirst "AES" '/') = ("AES", none) := by decide
  have hg2 : MaterialDescription.get [(CONTENT_ENCRYPTION_ALGORITHM, PyVal.str "AES")]
      CONTENT_KEY_WRAPPING_ALGORITHM = none := by decide
  refine ⟨?_, ?_, ?_⟩
  · have h := generation_trace_head e sk wk uk [] "AES/256"
      (wrapping_transformation wk.algorithm) (some 32) (by decide) (by decide)
      (by simp [MaterialDescription.getD, MaterialDescription.get, PyVal.asStr]) rfl
    rw [h, hs1]
  · have h := generation_trace_head e sk wk uk
      [(CONTENT_ENCRYPTION_ALGORITHM, PyVal.str "AES")] "AES"
      (wrapping_transformation wk.algorithm) none (by decide) (by decide)
      (by simp [MaterialDescription.getD, hg2, PyVal.asStr]) rfl
    rw [h, hs2]
  · intro ck w hg hw
    have h := generation_result e sk wk uk
      [(CONTENT_ENCRYPTION_ALGORITHM, PyVal.str "AES")] "AES"
      (wrapping_transformation wk.algorithm) none ck w (by decide) (by decide)
      (by simp [MaterialDescription.getD, hg2, PyVal.asStr]) rfl
      (by rw [hs2]; exact hg) hw
    exact ⟨⟨sk, ck,
      ((MaterialDescription.setKey [(CONTENT_ENCRYPTION_ALGORITHM, PyVal.str "AES")]
          WRAPPED_DATA_KEY (PyVal.bytes (b64encode w))).setKey
        CONTENT_ENCRYPTION_ALGORITHM (PyVal.str "AES")).setKey
        CONTENT_KEY_WRAPPING_ALGORITHM (PyVal.str (wrapping_transformation wk.algorithm))⟩,
      congrArg Prod.snd h, rfl⟩

/-- Witness for C8: the success conjunct instantiated at the concrete
engine. -/
theorem c8_defaults_and_key_length_witness :
    ∃ M, (construct testEngine sk0 (some wk0) none
        [(CONTENT_ENCRYPTION_ALGORITHM, PyVal.str "AES")]).2 = .ok M ∧
      M.encryption_key = ⟨"AES", [7, 11]⟩ :=
  (c8_defaults_and_key_length testEngine sk0 wk0 none).2.2 ⟨"AES", [7, 11]⟩ [7, 11]
    rfl rfl

/-- C10: a generation-path construction whose content-encryption spec has
a "/" followed by a non-integer segment fails with the uncaught
`ValueError` from `int` — an error that is neither `WrappingError` nor
`UnwrappingError` — before any capability call (only the missing-segment
`IndexError` is caught). -/
theorem c10_malformed_key_length_segment (e : CryptoEngine) (sk wk : DelegatedKey)
    (uk : Option DelegatedKey) (md : MaterialDescription) (spec tailSeg : String)
    (hno : md.hasKey WRAPPED_DATA_KEY = false)
    (hcea : md.getD CONTENT_ENCRYPTION_ALGORITHM
      (.str DEFAULT_CONTENT_ENCRYPTION_ALGORITHM) = .str spec)
    (hsplit : (splitFirst spec '/').2 = some tailSeg)
    (hbad : pyInt tailSeg = none)
    (hckwa : ∀ v, md.get CONTENT_KEY_WRAPPING_ALGORITHM = some v → ∃ s, v = PyVal.str s) :
    construct e sk (some wk) uk md
      = ([], .error (.valueError ("invalid literal for int() with base 10: " ++ tailSeg))) ∧
    (∀ m, PyError.valueError ("invalid literal for int() with base 10: " ++ tailSeg)
        ≠ PyError.wrappingError m ∧
      PyError.valueError ("invalid literal for int() with base 10: " ++ tailSeg)
        ≠ PyError.unwrappingError m) := by
  constructor
  · have hw : ∃ s, (md.getD CONTENT_KEY_WRAPPING_ALGORITHM
        (.str (wrapping_transformation wk.algorithm))).asStr = .ok s := by
      rcases h : md.get CONTENT_KEY_WRAPPING_ALGORITHM with _ | v
      · exact ⟨wrapping_transformation wk.algorithm,
          by simp [MaterialDescription.getD, h, PyVal.asStr]⟩
      · obtain ⟨s, rfl⟩ := hckwa v h
        exact ⟨s, by simp [MaterialDescription.getD, h, PyVal.asStr]⟩
    obtain ⟨s, hs⟩ := hw
    simp only [construct, hno, Bool.false_eq_true, if_false, hcea]
    simp only [generate_content_key]
    simp only [hs]
    simp only [PyVal.asStr]
    simp only [keyLengthFrom, hsplit]
    simp only [hbad]
    rfl
  · intro m
    exact ⟨fun h => (nomatch h), fun h => (nomatch h)⟩

/-- A concrete description whose algorithm spec has a malformed length
segment after the "/". -/
def mdBadLen : MaterialDescription := [(CONTENT_ENCRYPTION_ALGORITHM, PyVal.str "AES/abc")]

/-- Witness for C10 at the concrete spec "AES/abc". -/
theorem c10_malformed_key_length_segment_witness :
    construct testEngine sk0 (some wk0) none mdBadLen
      = ([], .error (.valueError ("invalid literal for int() with base 10: " ++ "abc"))) := by
  have hck : MaterialDescription.get mdBadLen CONTENT_KEY_WRAPPING_ALGORITHM = none := by
    decide
  exact (c10_malformed_key_length_segment testEngine sk0 wk0 none mdBadLen "AES/abc" "abc"
    (by decide) (by decide) (by decide) (by decide)
    (fun v h => by rw [hck] at h; exact (nomatch h))).1

theorem PyVal.asStr_ok (v : PyVal) (s : String) (h : v.asStr = .ok s) : v = .str s := by
  cases v with
  | str s0 =>
      simp only [PyVal.asStr, Except.ok.injEq] at h
      rw [h]
  | bytes b => simp [PyVal.asStr] at h

theorem genD_get_wrapped (md : MaterialDescription) (bv cv wv : PyVal) :
    (((md.setKey WRAPPED_DATA_KEY bv).setKey CONTENT_ENCRYPTION_ALGORITHM cv).setKey
        CONTENT_KEY_WRAPPING_ALGORITHM wv).get WRAPPED_DATA_KEY = some bv := by
  rw [MaterialDescription.get_setKey_other _ _ _ _ (by decide),
      MaterialDescription.get_setKey_other _ _ _ _ (by decide),
      MaterialDescription.get_setKey_self]

theorem genD_get_cea (md : MaterialDescription) (bv cv wv : PyVal) :
    (((md.setKey WRAPPED_DATA_KEY bv).setKey CONTENT_ENCRYPTION_ALGORITHM cv).setKey
        CONTENT_KEY_WRAPPING_ALGORITHM wv).get CONTENT_ENCRYPTION_ALGORITHM = some cv := by
  rw [MaterialDescription.get_setKey_other _ _ _ _ (by decide),
      MaterialDescription.get_setKey_self]

theorem genD_get_ckwa (md : MaterialDescription) (bv cv wv : PyVal) :
    (((md.setKey WRAPPED_DATA_KEY bv).setKey CONTENT_ENCRYPTION_ALGORITHM cv).setKey
        CONTENT_KEY_WRAPPING_ALGORITHM wv).get CONTENT_KEY_WRAPPING_ALGORITHM = some wv := by
  rw [MaterialDescription.get_setKey_self]

theorem genD_get_other (md : MaterialDescription) (bv cv wv : PyVal) (k : String)
    (h1 : k ≠ WRAPPED_DATA_KEY) (h2 : k ≠ CONTENT_ENCRYPTION_ALGORITHM)
    (h3 : k ≠ CONTENT_KEY_WRAPPING_ALGORITHM) :
    (((md.setKey WRAPPED_DATA_KEY bv).setKey CONTENT_ENCRYPTION_ALGORITHM cv).setKey
        CONTENT_KEY_WRAPPING_ALGORITHM wv).get k = md.get k := by
  rw [MaterialDescription.get_setKey_other _ _ _ _ h3,
      MaterialDescription.get_setKey_other _ _ _ _ h2,
      MaterialDescription.get_setKey_other _ _ _ _ h1]

/-- Inversion of a successful generation-path construction: each
resolution step succeeded, the engine calls succeeded, and the resulting
materials are exactly the generated key with the three-entry extension of
the caller's description. -/
theorem generation_ok_inversion (e : CryptoEngine) (sk wk : DelegatedKey)
    (uk : Option DelegatedKey) (md : MaterialDescription) (M : WrappedMaterials)
    (hno : md.hasKey WRAPPED_DATA_KEY = false)
    (hok : (construct e sk (some wk) uk md).2 = .ok M) :
    ∃ spec walg len ck w,
      md.getD CONTENT_ENCRYPTION_ALGORITHM (.str DEFAULT_CONTENT_ENCRYPTION_ALGORITHM)
        = .str spec ∧
      (md.getD CONTENT_KEY_WRAPPING_ALGORITHM
        (.str (wrapping_transformation wk.algorithm))).asStr = .ok walg ∧
      keyLengthFrom (splitFirst spec '/').2 = .ok len ∧
      e.generate (splitFirst spec '/').1 len = .ok ck ∧
      e.wrap wk walg ck.key = .ok w ∧
      M = ⟨sk, ck, ((md.setKey WRAPPED_DATA_KEY (.bytes (b64encode w))).setKey
            CONTENT_ENCRYPTION_ALGORITHM (.str spec)).setKey
            CONTENT_KEY_WRAPPING_ALGORITHM (.str walg)⟩ := by
  simp only [construct, hno, Bool.false_eq_true, if_false] at hok
  simp only [generate_content_key] at hok
  split at hok
  next err heq1 => simp [Except.map] at hok
  next walg heq1 =>
    split at hok
    next err heq2 => simp [Except.map] at hok
    next cka heq2 =>
      split at hok
      next err heq3 => simp [Except.map] at hok
      next len heq3 =>
        split at hok
        next err heq4 => simp [Except.map] at hok
        next ck heq4 =>
          split at hok
          next err heq5 => simp [Except.map] at hok
          next w heq5 =>
            simp only [Except.map, Except.ok.injEq] at hok
            have hcea := PyVal.asStr_ok _ _ heq2
            refine ⟨cka, walg, len, ck, w, hcea, heq1, heq3, heq4, heq5, ?_⟩
            rw [← hok, hcea]

/-- C5: a successful generation-path construction yields a material
description equal to the caller's description extended with exactly the
three recognized entries — wrapped-content-key (base64 of the wrapped key
bytes), content-encryption-algorithm-spec (the resolved/defaulted spec),
content-key-wrapping-algorithm (the resolved transform) — and every other
key of the caller's description is preserved verbatim with its original
value. -/
theorem c5_generation_output_description (e : CryptoEngine) (sk wk : DelegatedKey)
    (uk : Option DelegatedKey) (md : MaterialDescription) (M : WrappedMaterials)
    (hno : md.hasKey WRAPPED_DATA_KEY = false)
    (hok : (construct e sk (some wk) uk md).2 = .ok M) :
    ∃ spec walg w,
      md.getD CONTENT_ENCRYPTION_ALGORITHM (.str DEFAULT_CONTENT_ENCRYPTION_ALGORITHM)
        = .str spec ∧
      (md.getD CONTENT_KEY_WRAPPING_ALGORITHM
        (.str (wrapping_transformation wk.algorithm))).asStr = .ok walg ∧
      e.wrap wk walg M.content_key.key = .ok w ∧
      M.material_description
        = ((md.setKey WRAPPED_DATA_KEY (.bytes (b64encode w))).setKey
            CONTENT_ENCRYPTION_ALGORITHM (.str spec)).setKey
            CONTENT_KEY_WRAPPING_ALGORITHM (.str walg) ∧
      M.material_description.get WRAPPED_DATA_KEY = some (.bytes (b64encode w)) ∧
      M.material_description.get CONTENT_ENCRYPTION_ALGORITHM = some (.str spec) ∧
      M.material_description.get CONTENT_KEY_WRAPPING_ALGORITHM = some (.str walg) ∧
      ∀ k, k ≠ WRAPPED_DATA_KEY → k ≠ CONTENT_ENCRYPTION_ALGORITHM →
        k ≠ CONTENT_KEY_WRAPPING_ALGORITHM → M.material_description.get k = md.get k := by
  obtain ⟨spec, walg, len, ck, w, hcea, hckwa, hlen, hgen, hw, hM⟩ :=
    generation_ok_inversion e sk wk uk md M hno hok
  subst hM
  exact ⟨spec, walg, w, hcea, hckwa, hw, rfl, genD_get_wrapped md _ _ _,
    genD_get_cea md _ _ _, genD_get_ckwa md _ _ _,
    fun k h1 h2 h3 => genD_get_other md _ _ _ k h1 h2 h3⟩

/-- Witness for C5 at the concrete engine, empty caller description, and
its computed result. -/
theorem c5_generation_output_description_witness :
    ∃ spec walg w,
      MaterialDescription.getD [] CONTENT_ENCRYPTION_ALGORITHM
        (.str DEFAULT_CONTENT_ENCRYPTION_ALGORITHM) = .str spec ∧
      (MaterialDescription.getD [] CONTENT_KEY_WRAPPING_ALGORITHM
        (.str (wrapping_transformation wk0.algorithm))).asStr = .ok walg ∧
      testEngine.wrap wk0 walg m1Gen0.content_key.key = .ok w ∧
      m1Gen0.material_description
        = ((MaterialDescription.setKey [] WRAPPED_DATA_KEY (.bytes (b64encode w))).setKey
            CONTENT_ENCRYPTION_ALGORITHM (.str spec)).setKey
            CONTENT_KEY_WRAPPING_ALGORITHM (.str walg) ∧
      m1Gen0.material_description.get WRAPPED_DATA_KEY = some (.bytes (b64encode w)) ∧
      m1Gen0.material_description.get CONTENT_ENCRYPTION_ALGORITHM = some (.str spec) ∧
      m1Gen0.material_description.get CONTENT_KEY_WRAPPING_ALGORITHM = some (.str walg) ∧
      ∀ k, k ≠ WRAPPED_DATA_KEY → k ≠ CONTENT_ENCRYPTION_ALGORITHM →
        k ≠ CONTENT_KEY_WRAPPING_ALGORITHM →
        m1Gen0.material_description.get k = MaterialDescription.get [] k :=
  c5_generation_output_description testEngine sk0 wk0 none [] m1Gen0 rfl rfl

/-- C6: the generation path stores the raw result of `base64.b64encode` —
a `bytes` value, not a `str` — as the wrapped-content-key entry, so the
produced description is not a flat string-to-string mapping (contradicting
the `Dict[Text, Text]` annotation; the other two inserted values are
strings). -/
theorem c6_wrapped_value_inserted_as_bytes (e : CryptoEngine) (sk wk : DelegatedKey)
    (uk : Option DelegatedKey) (md : MaterialDescription) (M : WrappedMaterials)
    (hno : md.hasKey WRAPPED_DATA_KEY = false)
    (hok : (construct e sk (some wk) uk md).2 = .ok M) :
    ∃ b, M.material_description.get WRAPPED_DATA_KEY = some (.bytes b) ∧
      ∀ s, PyVal.bytes b ≠ PyVal.str s := by
  obtain ⟨spec, walg, len, ck, w, hcea, hckwa, hlen, hgen, hw, hM⟩ :=
    generation_ok_inversion e sk wk uk md M hno hok
  subst hM
  exact ⟨b64encode w, genD_get_wrapped md _ _ _, fun s h => (nomatch h)⟩

/-- Witness for C6: the concrete generation result stores a bytes value
under the wrapped-content-key entry. -/
theorem c6_wrapped_value_inserted_as_bytes_witness :
    ∃ b, m1Gen0.material_description.get WRAPPED_DATA_KEY = some (.bytes b) ∧
      ∀ s, PyVal.bytes b ≠ PyVal.str s :=
  c6_wrapped_value_inserted_as_bytes testEngine sk0 wk0 none [] m1Gen0 rfl rfl

/-- C1: round trip. For any engine in which the unwrapping key matches the
wrapping key (unwrap inverts wrap and wrapped bytes are valid bytes),
generating materials M1 from a description without a wrapped-content-key
entry and then constructing M2 in recovery mode from M1's material
description yields a decryption key whose raw bytes equal M1's encryption
key's raw bytes. -/
theorem c1_round_trip (e : CryptoEngine) (sk wk uk : DelegatedKey)
    (md0 : MaterialDescription) (M1 : WrappedMaterials)
    (hno : md0.hasKey WRAPPED_DATA_KEY = false)
    (hmatch : ∀ alg ck w, e.wrap wk alg ck = .ok w →
      (∀ x ∈ w, x < 256) ∧
      ∀ fam, ∃ dk, e.unwrap uk alg w fam = .ok dk ∧ dk.key = ck)
    (hok : (construct e sk (some wk) none md0).2 = .ok M1) :
    ∃ M2, (construct e sk none (some uk) M1.material_description).2 = .ok M2 ∧
      M2.decryption_key.key = M1.encryption_key.key := by
  obtain ⟨spec, walg, len, ck, w, hcea, hckwa, hlen, hgen, hw, hM⟩ :=
    generation_ok_inversion e sk wk none md0 M1 hno hok
  obtain ⟨hbound, hunwrap⟩ := hmatch walg ck.key w hw
  obtain ⟨dk, hun, hkey⟩ := hunwrap (splitFirst spec '/').1
  subst hM
  have hgw := genD_get_wrapped md0 (PyVal.bytes (b64encode w)) (PyVal.str spec)
    (PyVal.str walg)
  have hgc := genD_get_cea md0 (PyVal.bytes (b64encode w)) (PyVal.str spec)
    (PyVal.str walg)
  have hgk := genD_get_ckwa md0 (PyVal.bytes (b64encode w)) (PyVal.str spec)
    (PyVal.str walg)
  have hhk : (((md0.setKey WRAPPED_DATA_KEY (PyVal.bytes (b64encode w))).setKey
      CONTENT_ENCRYPTION_ALGORITHM (PyVal.str spec)).setKey
      CONTENT_KEY_WRAPPING_ALGORITHM (PyVal.str walg)).hasKey WRAPPED_DATA_KEY = true := by
    simp [MaterialDescription.hasKey, hgw]
  have hdec : b64decodeVal (PyVal.bytes (b64encode w)) = .ok w := by
    simp [b64decodeVal, b64decodeAux_b64encode w hbound]
  have hcon : (construct e sk none (some uk)
      (((md0.setKey WRAPPED_DATA_KEY (PyVal.bytes (b64encode w))).setKey
        CONTENT_ENCRYPTION_ALGORITHM (PyVal.str spec)).setKey
        CONTENT_KEY_WRAPPING_ALGORITHM (PyVal.str walg))).2 = .ok ⟨sk, dk,
      ((md0.setKey WRAPPED_DATA_KEY (PyVal.bytes (b64encode w))).setKey
        CONTENT_ENCRYPTION_ALGORITHM (PyVal.str spec)).setKey
        CONTENT_KEY_WRAPPING_ALGORITHM (PyVal.str walg)⟩ := by
    simp only [construct, hhk, if_true]
    simp only [MaterialDescription.getD, hgc, Option.getD_some]
    simp only [content_key_from_material_description]
    simp only [MaterialDescription.getD, hgk, Option.getD_some]
    simp only [PyVal.asStr]
    simp only [hgw]
    simp only [hdec]
    simp only [hun]
    simp only [Except.map]
  exact ⟨_, hcon, hkey⟩

/-- Witness for C1 at the concrete engine: generation from an empty
description followed by recovery from the produced description returns
byte-identical key material. -/
theorem c1_round_trip_witness :
    ∃ M2, (construct testEngine sk0 none (some wk0) m1Gen0.material_description).2
        = .ok M2 ∧
      M2.decryption_key.key = m1Gen0.encryption_key.key := by
  refine c1_round_trip testEngine sk0 wk0 wk0 [] m1Gen0 rfl ?_ rfl
  intro alg ck w hw
  simp only [testEngine] at hw
  split at hw
  next hall =>
    injection hw with h
    subst h
    refine ⟨?_, ?_⟩
    · intro x hx
      have := List.all_eq_true.mp hall x hx
      simpa using this
    · intro fam
      exact ⟨⟨fam, ck⟩, rfl, rfl⟩
  next hall => exact (nomatch hw)

theorem except_map_eq_ok {α β ε : Type} (f : α → β) (x : Except ε α) (b : β)
    (h : Except.map f x = .ok b) : ∃ a, x = .ok a ∧ f a = b := by
  cases x with
  | error err => simp [Except.map] at h
  | ok a =>
      refine ⟨a, rfl, ?_⟩
      simpa [Except.map] using h

/-- C4: description immutability. On any successful construction the
caller's dictionary is unchanged (the constructor never mutates it in
place), the instance holds a freshly allocated dictionary distinct from
the caller's reference, and any later mutation through the caller's
reference leaves the instance's `material_description` read unchanged.
The four key accessors are fields holding key values, not heap
references, so they cannot be affected by dictionary mutation at all. -/
theorem c4_description_immutability (e : CryptoEngine) (sk : DelegatedKey)
    (wk uk : Option DelegatedKey) (callerRef : Nat) (hp : Heap)
    (M : WrappedMaterialsRef) (hp' : Heap)
    (hvalid : callerRef < hp.next)
    (hok : (constructRef e sk wk uk callerRef hp).2 = .ok (M, hp')) :
    hp'.read callerRef = hp.read callerRef ∧
    M.material_description_ref ≠ callerRef ∧
    (∀ d, (hp'.write callerRef d).read M.material_description_ref
        = hp'.read M.material_description_ref) := by
  simp only [constructRef] at hok
  split at hok
  · obtain ⟨ck, hck, hfb⟩ := except_map_eq_ok _ _ _ hok
    have hM := congrArg Prod.fst hfb
    have hh := congrArg Prod.snd hfb
    simp only at hM hh
    subst hM
    subst hh
    refine ⟨Heap.read_alloc_of_lt hp _ callerRef hvalid, ?_, ?_⟩
    · simp only [Heap.alloc]
      omega
    · intro d
      apply Heap.read_write_of_ne
      simp only [Heap.alloc]
      omega
  · obtain ⟨p, hpair, hfb⟩ := except_map_eq_ok _ _ _ hok
    have hM := congrArg Prod.fst hfb
    have hh := congrArg Prod.snd hfb
    simp only at hM hh
    subst hM
    subst hh
    refine ⟨?_, ?_, ?_⟩
    · rw [Heap.read_alloc_of_lt _ _ _ (by simp only [Heap.alloc, Heap.next_alloc]; omega),
          Heap.read_alloc_of_lt _ _ _ hvalid]
    · simp only [Heap.alloc]
      omega
    · intro d
      apply Heap.read_write_of_ne
      simp only [Heap.alloc]
      omega

/-- Witness for C4: a concrete one-dictionary heap; construction
allocates reference 2 for the instance's description, distinct from the
caller's reference 0, and mutation at 0 does not change reads at 2. -/
theorem c4_description_immutability_witness :
    ((((⟨fun _ => [], 1⟩ : Heap).alloc []).2.alloc mdGen0).2).read 0
        = (⟨fun _ => [], 1⟩ : Heap).read 0 ∧
    WrappedMaterialsRef.material_description_ref ⟨sk0, ⟨"AES", [7, 11]⟩, 2⟩ ≠ 0 ∧
    (∀ d, (((((⟨fun _ => [], 1⟩ : Heap).alloc []).2.alloc mdGen0).2).write 0 d).read
        (WrappedMaterialsRef.material_description_ref ⟨sk0, ⟨"AES", [7, 11]⟩, 2⟩)
      = ((((⟨fun _ => [], 1⟩ : Heap).alloc []).2.alloc mdGen0).2).read
        (WrappedMaterialsRef.material_description_ref ⟨sk0, ⟨"AES", [7, 11]⟩, 2⟩)) :=
  c4_description_immutability testEngine sk0 (some wk0) none 0 ⟨fun _ => [], 1⟩
    ⟨sk0, ⟨"AES", [7, 11]⟩, 2⟩ (((⟨fun _ => [], 1⟩ : Heap).alloc []).2.alloc mdGen0).2
    Nat.one_pos rfl
